import Mathlib

/-!
# Blackout-tracker schedule and monitoring core: verification

Shallow embedding of the schedule/cache/monitoring logic of the
blackout-tracker repository, translated from `src/config.py`,
`src/server.py` and `src/monitor_outages_daemon.py`, together with theorems
settling the specification claims about it.

Conventions: Python ints are `Int`; `datetime` instants are split into the
parts the code actually reads (a `%d.%m.%y` date string, hour, minute, or a
seconds value where only an age difference is taken); Python `None` is
`Option.none`; a fallible fetch is a `FetchOutcome` value passed in.
-/

/-- One cell of the DTEK schedule grid: `OutageSchedule` in `src/config.py`
(lines 44-58).  The `fetched_at` field is a construction-time timestamp that no
logic ever reads, so it is omitted.  `date` is `None` for possible-week rows
and a `"%d.%m.%y"` string (or `""` when the parser found no date) for actual
rows. -/
structure OutageSchedule where
  schedule_type : String
  day_of_week : String
  date : Option String
  start_hour : Int
  end_hour : Int
  outage_type : String
deriving DecidableEq

/-- Snapshot bundle `ScheduleCache` from `src/config.py` (lines 61-65);
`last_updated` is the fetch instant in seconds (only the age
`now - last_updated` is ever computed from it). -/
structure ScheduleCache where
  actual_schedules : List OutageSchedule
  possible_schedules : List OutageSchedule
  last_updated : Int
deriving DecidableEq

/-- Monitoring configuration exactly as `src/config.py` declares it
(lines 23-27): three fields, nothing else.  In particular there is no
`tracked_outage` field and `src/config.py` defines no `TrackedOutage` class,
although `src/monitor_outages_daemon.py:23` imports one from it. -/
structure MonitoringConfig where
  check_interval_minutes : Int
  notification_before_minutes : Int
  enabled : Bool
deriving DecidableEq

/-- Modelled from the spec: `TrackedOutage` (spec section 3) with fields
`date`, `startHour`, `endHour`, `notifiedAboutStart`, `notifiedAboutChange`.
The daemon constructs it with exactly these keyword names
(`src/monitor_outages_daemon.py:139-145`) and imports the class from `config`,
but no file under `src/` defines it; the definition is therefore taken from
the spec's data model.  `date` is optional because the daemon copies
`closest_outage.date`, an `Optional[str]`. -/
structure TrackedOutage where
  date : Option String
  start_hour : Int
  end_hour : Int
  notified_about_start : Bool
  notified_about_change : Bool
deriving DecidableEq

/-- A Python value passed as a keyword argument to `Config.update_monitoring`
(`src/config.py:121-126`).  The repository's call sites pass ints, bools, or a
tracked outage. -/
inductive AttrVal where
  | int (n : Int)
  | bool (b : Bool)
  | tracked (t : TrackedOutage)
deriving DecidableEq

/-- Attribute names present on a `MonitoringConfig` instance: `hasattr` in
`Config.update_monitoring` (`src/config.py:124`) is true exactly for the three
declared pydantic fields. -/
def monitoringFieldNames : List String :=
  ["check_interval_minutes", "notification_before_minutes", "enabled"]

/-- Effect of `setattr(self.monitoring, key, value)` for a key that exists on
`MonitoringConfig`.  At every call site in the repository the value type
matches the named field, so a mismatched value is modelled as leaving the
field unchanged. -/
def setMonitoringAttr (m : MonitoringConfig) (key : String) (v : AttrVal) :
    MonitoringConfig :=
  if key = "check_interval_minutes" then
    match v with
    | .int n => { m with check_interval_minutes := n }
    | _ => m
  else if key = "notification_before_minutes" then
    match v with
    | .int n => { m with notification_before_minutes := n }
    | _ => m
  else if key = "enabled" then
    match v with
    | .bool b => { m with enabled := b }
    | _ => m
  else m

/-- One iteration of the loop in `Config.update_monitoring`
(`src/config.py:123-125`): set the attribute only when `hasattr` holds;
silently skip every other keyword. -/
def updateMonitoringStep (m : MonitoringConfig) (kv : String × AttrVal) :
    MonitoringConfig :=
  if kv.1 ∈ monitoringFieldNames then setMonitoringAttr m kv.1 kv.2 else m

/-- Full `Config.update_monitoring` (`src/config.py:121-126`): fold the
keyword arguments through the hasattr-guarded setattr loop, then
`_save_config` writes `self.monitoring.model_dump()` to the config file.  The
result pair is (in-memory monitoring config, monitoring record in the saved
file); `_save_config` dumps the very record just mutated, so the two
components coincide. -/
def update_monitoring (m : MonitoringConfig) (kwargs : List (String × AttrVal)) :
    MonitoringConfig × MonitoringConfig :=
  let m' := kwargs.foldl updateMonitoringStep m
  (m', m')

/-- Attribute read on a `MonitoringConfig` instance: pydantic exposes exactly
the declared fields; reading any other name — as
`monitoring.tracked_outage` does at `src/monitor_outages_daemon.py:180,189` —
raises `AttributeError`, modelled as `none`. -/
def monitoringGetAttr (m : MonitoringConfig) (key : String) : Option AttrVal :=
  if key = "check_interval_minutes" then some (.int m.check_interval_minutes)
  else if key = "notification_before_minutes" then
    some (.int m.notification_before_minutes)
  else if key = "enabled" then some (.bool m.enabled)
  else none

/-! ## `handle_check_schedule` (src/server.py:203-251) -/

/-- Outcome of the one `fetch_dtek_schedule` call available to an invocation
of `handle_check_schedule` (`src/server.py:231-251`): success with a fresh
snapshot, or an exception whose text is interpolated into the error reply. -/
inductive FetchOutcome where
  | ok (c : ScheduleCache)
  | err (msg : String)
deriving DecidableEq

/-- Result of the `check_outage_schedule` tool: no address configured, a
snapshot served (with the `from_cache` flag passed to
`format_schedule_response`), or the fetch error surfaced to the caller. -/
inductive CheckScheduleResult where
  | noAddress
  | served (c : ScheduleCache) (fromCache : Bool)
  | fetchFailed (msg : String)
deriving DecidableEq

/-- Fetch-and-cache branch of `handle_check_schedule`
(`src/server.py:229-251`): call the fetcher once; on success save and serve
the fresh snapshot, on failure return the error text.  The second component
counts fetcher calls. -/
def fetchBranch (fetch : FetchOutcome) : CheckScheduleResult × Nat :=
  match fetch with
  | .ok c => (.served c false, 1)
  | .err msg => (.fetchFailed msg, 1)

/-- Cache-freshness test of `handle_check_schedule` (`src/server.py:217-222`):
the cache is served when not forcing a refresh, a cached snapshot exists,
its `actual_schedules` list is nonempty (`if cached and
cached.actual_schedules`), and it is strictly less than 3600 seconds old. -/
def cacheServable (cached : Option ScheduleCache) (forceRefresh : Bool)
    (now : Int) : Bool :=
  !forceRefresh &&
    match cached with
    | some c =>
        !c.actual_schedules.isEmpty && decide (now - c.last_updated < 3600)
    | none => false

/-- Full `handle_check_schedule` (`src/server.py:203-251`).  When
`force_refresh` is set the cache is not even loaded; otherwise the freshness
test decides between serving the cache and fetching. -/
def handle_check_schedule (hasAddress : Bool) (cached : Option ScheduleCache)
    (forceRefresh : Bool) (now : Int) (fetch : FetchOutcome) :
    CheckScheduleResult × Nat :=
  if !hasAddress then (.noAddress, 0)
  else
    match (if forceRefresh then none else cached) with
    | some c =>
        if !c.actual_schedules.isEmpty && decide (now - c.last_updated < 3600)
        then (.served c true, 0)
        else fetchBranch fetch
    | none => fetchBranch fetch

/-- From-cache flag of a `handle_check_schedule` result (the `from_cache`
argument of `format_schedule_response`); error and no-address replies carry no
snapshot at all. -/
def resultFromCache : CheckScheduleResult → Bool
  | .served _ b => b
  | _ => false

/-! ## `handle_get_next_outage` (src/server.py:254-304) -/

/-- Candidate test of the scan in `handle_get_next_outage`
(`src/server.py:283-293`): a today-dated entry qualifies when its start hour
is strictly greater than the current hour; an entry dated anything else
(tomorrow, but equally a past date, an empty string or `None`) qualifies
immediately. -/
def nextOutageCand (today : String) (currentHour : Int)
    (s : OutageSchedule) : Bool :=
  if s.date == some today then decide (currentHour < s.start_hour) else true

/-- Selection logic of `handle_get_next_outage` (`src/server.py:254-304`):
filter the cached entries to actual-type ones, scan them in list order for
the first candidate (the `for ... break` loop), and fall back to the first
entry when the scan finds nothing but the list is nonempty
(`src/server.py:295-298`); only an empty list yields no outage. -/
def handle_get_next_outage (c : ScheduleCache) (today : String)
    (currentHour : Int) : Option OutageSchedule :=
  let actual := c.actual_schedules.filter (fun s => s.schedule_type == "actual")
  match actual.find? (nextOutageCand today currentHour) with
  | some s => some s
  | none => actual.head?

/-- One-hour actual slot dated 21.11.25 as the parser produces them
(`src/parser.py:374-381` emits one `OutageSchedule` per marked hour cell). -/
def hourSlot (h : Int) : OutageSchedule :=
  ⟨"actual", "Friday", some "21.11.25", h, h + 1, "definite"⟩

/-- Cache of the hourly-slot regression scenario
(`src/tests/test_hourly_outage_slots.py`): a continuous 13:00-20:00 outage
split into hourly slots plus a separate 23:00-24:00 outage, all today. -/
def hourlyScenarioCache : ScheduleCache :=
  ⟨[hourSlot 13, hourSlot 14, hourSlot 15, hourSlot 16, hourSlot 17,
    hourSlot 18, hourSlot 19, hourSlot 23], [], 0⟩

/-! ## Daemon checks (src/monitor_outages_daemon.py)

The daemon manipulates a tracked outage through `monitoring.tracked_outage`
and `config.update_monitoring(tracked_outage=...)`.  As recorded above,
`src/config.py` defines neither the class nor the field, so the daemon-level
monitoring state is completed from the spec's data model; see
`DaemonMonitoringConfig`. -/

/-- Reference instant as the daemon reads `datetime.now()`: the
`"%d.%m.%y"`-formatted date, the hour and the minute
(`src/monitor_outages_daemon.py:99-102`). -/
structure Instant where
  today : String
  hour : Int
  minute : Int
deriving DecidableEq

/-- Modelled from the spec: section 3 gives `MonitoringConfig` the fields of
`src/config.py:23-27` "plus the current `TrackedOutage` (optional)".  The
`tracked_outage` field is read and written throughout
`src/monitor_outages_daemon.py` (lines 146, 180, 189, 237, 271) but is missing
from `src/config.py`; it is supplied here so the daemon's own logic can be
stated, with writes taking effect as the daemon source assumes. -/
structure DaemonMonitoringConfig where
  check_interval_minutes : Int
  notification_before_minutes : Int
  enabled : Bool
  tracked_outage : Option TrackedOutage
deriving DecidableEq

/-- State visible to one daemon check: the monitoring configuration, whether
an address is configured, the cached snapshot, and the process-lifetime set of
already-notified outage identifiers (`notified_outages` in
`src/monitor_outages_daemon.py:325`). -/
structure DaemonState where
  monitoring : DaemonMonitoringConfig
  hasAddress : Bool
  cache : Option ScheduleCache
  notified : List String
deriving DecidableEq

/-- Zero-padded rendering `f"{h:02d}"` for the hour values the grid
produces. -/
def twoDigits (h : Int) : String :=
  if 0 ≤ h ∧ h < 10 then "0" ++ toString h else toString h

/-- Outage identifier `f"{date}_{start_hour:02d}"`
(`src/monitor_outages_daemon.py:128`); a `None` date formats as the string
`"None"`. -/
def outageId (s : OutageSchedule) : String :=
  (match s.date with | some d => d | none => "None") ++ "_" ++ twoDigits s.start_hour

/-- Minutes until an outage's start,
`(schedule.start_hour - current_hour) * 60 - current_minute`
(`src/monitor_outages_daemon.py:116`). -/
def minutesUntil (now : Instant) (startHour : Int) : Int :=
  (startHour - now.hour) * 60 - now.minute

/-- Actual-type filter applied by both daemon checks
(`src/monitor_outages_daemon.py:105-106, 212-213`). -/
def actualOnly (c : ScheduleCache) : List OutageSchedule :=
  c.actual_schedules.filter (fun s => s.schedule_type == "actual")

/-- Eligibility for the upcoming-outage window
(`src/monitor_outages_daemon.py:110-120`): dated today, and starting within
`[0, notification_before_minutes]` minutes from now. -/
def upcomingEligible (m : DaemonMonitoringConfig) (now : Instant)
    (s : OutageSchedule) : Bool :=
  s.date == some now.today &&
    decide (0 ≤ minutesUntil now s.start_hour) &&
    decide (minutesUntil now s.start_hour ≤ m.notification_before_minutes)

/-- Python's `min(xs, key=f)`: the first element attaining the least key. -/
def minByKey (f : α → Int) : List α → Option α
  | [] => none
  | x :: xs =>
      match minByKey f xs with
      | none => some x
      | some y => if f y < f x then some y else some x

/-- A daemon notification: a start warning
(`src/monitor_outages_daemon.py:148-164`), or one of the three drift
notifications of `check_schedule_changes` (cancellation, extension,
shortening; lines 222-272). -/
inductive NotifEvent where
  | startWarning (s : OutageSchedule) (minutesUntilStart : Int)
  | cancellation (t : TrackedOutage)
  | extended (t : TrackedOutage) (newEnd : Int)
  | shortened (t : TrackedOutage) (newEnd : Int)
deriving DecidableEq

/-- Daemon `check_upcoming_outages` (`src/monitor_outages_daemon.py:70-167`):
guards for enabled monitoring, a configured address and a nonempty cached
snapshot; collects today's actual slots inside the notification window; takes
the closest one; suppresses it when already notified; otherwise records the
identifier, stores the tracked outage
(`config.update_monitoring(tracked_outage=...)`, taking effect on the
daemon-level state), and emits the start warning. -/
def check_upcoming_outages (st : DaemonState) (now : Instant) :
    Option NotifEvent × DaemonState :=
  if !st.monitoring.enabled then (none, st)
  else if !st.hasAddress then (none, st)
  else
    match st.cache with
    | none => (none, st)
    | some c =>
      if c.actual_schedules.isEmpty then (none, st)
      else
        let upcoming := (actualOnly c).filter (upcomingEligible st.monitoring now)
        match minByKey (fun s => minutesUntil now s.start_hour) upcoming with
        | none => (none, st)
        | some closest =>
          if outageId closest ∈ st.notified then (none, st)
          else
            (some (.startWarning closest (minutesUntil now closest.start_hour)),
             { st with
                notified := outageId closest :: st.notified,
                monitoring :=
                  { st.monitoring with
                      tracked_outage :=
                        some ⟨closest.date, closest.start_hour,
                              closest.end_hour, true, false⟩ } })

/-- Daemon `check_schedule_changes` (`src/monitor_outages_daemon.py:170-274`):
runs only when monitoring is enabled, a tracked outage is set, dated today,
within ten minutes of its restoration time and not yet flagged; then requires
a nonempty cached snapshot, looks the tracked `(date, start_hour)` up in it
and emits a cancellation (not found), an extension or shortening (end hour
differs, tracked end updated) or nothing (unchanged), flagging
`notified_about_change` whenever it emits. -/
def check_schedule_changes (st : DaemonState) (now : Instant) :
    Option NotifEvent × DaemonState :=
  if !st.monitoring.enabled then (none, st)
  else
    match st.monitoring.tracked_outage with
    | none => (none, st)
    | some tr =>
      if tr.date != some now.today then (none, st)
      else
        let rest := (tr.end_hour - now.hour) * 60 - now.minute
        if !(decide (0 ≤ rest) && decide (rest ≤ 10)) then (none, st)
        else if tr.notified_about_change then (none, st)
        else
          match st.cache with
          | none => (none, st)
          | some c =>
            if c.actual_schedules.isEmpty then (none, st)
            else
              match (actualOnly c).find?
                  (fun s => s.date == some now.today &&
                            s.start_hour == tr.start_hour) with
              | none =>
                  (some (.cancellation tr),
                   { st with
                      monitoring :=
                        { st.monitoring with
                            tracked_outage :=
                              some { tr with notified_about_change := true } } })
              | some cur =>
                  if cur.end_hour != tr.end_hour then
                    (some (if tr.end_hour < cur.end_hour then
                             .extended tr cur.end_hour
                           else .shortened tr cur.end_hour),
                     { st with
                        monitoring :=
                          { st.monitoring with
                              tracked_outage :=
                                some { tr with
                                        end_hour := cur.end_hour,
                                        notified_about_change := true } } })
                  else (none, st)

/-- One iteration of the daemon main loop's check block
(`src/monitor_outages_daemon.py:379-397`): `check_upcoming_outages` runs
first, then `check_schedule_changes` on the state the first check left
behind; the events of both are sent, in that order.  Both checks reload the
same shared configuration and cache and read the clock within the same
cycle. -/
def daemonCycle (st : DaemonState) (now : Instant) :
    List NotifEvent × DaemonState :=
  let r1 := check_upcoming_outages st now
  let r2 := check_schedule_changes r1.2 now
  (r1.1.toList ++ r2.1.toList, r2.2)

/-- A sequence of upcoming-start checks sharing one `NotifiedSet` lifetime:
between checks the configuration, address, cache and clock may change
arbitrarily (the daemon reloads them every cycle), while the notified set is
threaded through (`src/monitor_outages_daemon.py:325,383`). -/
def runUpcomingChecks :
    List (DaemonMonitoringConfig × Bool × Option ScheduleCache × Instant) →
    List String → List NotifEvent
  | [], _ => []
  | (m, ha, c, now) :: rest, notified =>
      let r := check_upcoming_outages ⟨m, ha, c, notified⟩ now
      r.1.toList ++ runUpcomingChecks rest r.2.notified

/-- Test whether an event is a start warning for the given identifier. -/
def eventWarnsId (id : String) : NotifEvent → Bool
  | .startWarning s _ => outageId s == id
  | _ => false

/-! ## Concrete scenario states -/

/-- Daemon state of the ongoing-outage scenario: monitoring enabled with a 45
minute warning window, address configured, and a cached snapshot holding the
ongoing 13:00-20:00 outage as hourly slots (the shape `src/parser.py`
produces). -/
def ongoingOutageState : DaemonState :=
  ⟨⟨60, 45, true, none⟩, true,
   some ⟨[hourSlot 13, hourSlot 14, hourSlot 15, hourSlot 16, hourSlot 17,
          hourSlot 18, hourSlot 19], [], 0⟩, []⟩

/-- An actual slot dated tomorrow (22.11.25), 08:00-09:00. -/
def tomorrowSlot : OutageSchedule :=
  ⟨"actual", "Saturday", some "22.11.25", 8, 9, "definite"⟩

/-- Daemon state in which both checks would fire at 18:55: a tracked outage
13:00-19:00 from an earlier cycle is four minutes from its restoration time
and has vanished from the snapshot (so the drift check alone would emit a
cancellation), while the snapshot's 19:00-20:00 slot is five minutes from
starting (so the upcoming check emits a start warning). -/
def bothChecksState : DaemonState :=
  ⟨⟨60, 45, true, some ⟨some "21.11.25", 13, 19, true, false⟩⟩, true,
   some ⟨[hourSlot 19], [], 0⟩, []⟩

/-- Daemon state for the schedule-drift witness: tracked outage 13:00-19:00,
snapshot holding only a 23:00-24:00 slot (so the tracked entry is gone). -/
def driftWitnessState : DaemonState :=
  ⟨⟨60, 45, true, some ⟨some "21.11.25", 13, 19, true, false⟩⟩, true,
   some ⟨[hourSlot 23], [], 0⟩, []⟩

/-- Daemon state for the schedule-drift counterexample: tracked outage
13:00-19:00 five minutes from restoration, but the cached snapshot's actual
list is empty. -/
def emptySnapshotState : DaemonState :=
  ⟨⟨60, 45, true, some ⟨some "21.11.25", 13, 19, true, false⟩⟩, true,
   some ⟨[], [], 0⟩, []⟩

/-! ## Claim theorems -/

/-- C1: at the repository's own regression input
(`src/tests/test_hourly_outage_slots.py`: hourly slots 13:00-20:00 plus a
23:00-24:00 outage, reference time 18:11, hence current hour 18) the
next-outage scan returns the 19:00-20:00 slot — a slot inside the ongoing
13:00-20:00 block that contains hour 18 — although the 23:00-24:00 outage is
present in the cache and the test demands it be the answer.  This evaluates
the code at the failing input of the claim. -/
theorem next_outage_scan_returns_ongoing_slot :
    handle_get_next_outage hourlyScenarioCache "21.11.25" 18 = some (hourSlot 19) ∧
    hourSlot 23 ∈ hourlyScenarioCache.actual_schedules := by decide

/-- C2: the write `config.update_monitoring(tracked_outage=tracked_outage)`
performed right after a start warning (`src/monitor_outages_daemon.py:146`) is
silently dropped, because `MonitoringConfig` (`src/config.py:23-27`) declares
no `tracked_outage` field: both the in-memory monitoring configuration and the
saved file are left unchanged, and reading the attribute back yields
nothing. -/
theorem update_monitoring_drops_tracked_outage (m : MonitoringConfig)
    (t : TrackedOutage) :
    update_monitoring m [("tracked_outage", AttrVal.tracked t)] = (m, m) ∧
    monitoringGetAttr m "tracked_outage" = none :=
  ⟨rfl, rfl⟩

/-- C3: with the ongoing 13:00-20:00 outage stored as hourly source slots, at
17:17 with `notification_before_minutes = 45` the daemon's upcoming check
emits a start warning for the 18:00-19:00 slot (43 minutes away) — a slot
inside the block that is already in progress — although the claim (and the
intent recorded in `src/tests/test_ongoing_outage_notification_bug.py`)
requires that no start warning be emitted for an ongoing outage.  The server
handler `handle_check_upcoming_outages` (`src/server.py:560-594`) computes the
same per-slot window without even the today-date filter. -/
theorem upcoming_check_warns_inside_ongoing_block :
    (check_upcoming_outages ongoingOutageState ⟨"21.11.25", 17, 17⟩).1
      = some (.startWarning (hourSlot 18) 43) := by decide

/-- C4 counterexample: with `force_refresh = false` and a cached snapshot
that is 0 seconds old — so the claim's condition `now - fetchedAt < 3600 ∧
¬forceRefresh` holds — the handler still refetches (one fetcher call, result
not from cache), because the snapshot's actual list is empty and the code
additionally requires `cached.actual_schedules` to be nonempty. -/
theorem check_schedule_fresh_empty_cache_refetches :
    ((0 : Int) - (0 : Int) < 3600) ∧
    handle_check_schedule true (some ⟨[], [], 0⟩) false 0
        (.ok ⟨[hourSlot 13], [], 5⟩)
      = (.served ⟨[hourSlot 13], [], 5⟩ false, 1) := by decide

/-- C4 (amended): with an address configured, the schedule check serves the
cache (`fromCache = true`) exactly when `cacheServable` holds — `forceRefresh`
false, a cached snapshot with a nonempty actual list present, and age
strictly below 3600 seconds; when it holds the served snapshot is the cached
one with zero fetcher calls, and otherwise exactly one fetcher call is made
and a successful fetch is served fresh. -/
theorem check_schedule_cache_policy (cached : Option ScheduleCache) (force : Bool)
    (now : Int) (fetch : FetchOutcome) :
    (resultFromCache (handle_check_schedule true cached force now fetch).1
        = cacheServable cached force now) ∧
    (∀ c, cached = some c → cacheServable cached force now = true →
        handle_check_schedule true cached force now fetch = (.served c true, 0)) ∧
    (cacheServable cached force now = false →
        (handle_check_schedule true cached force now fetch).2 = 1 ∧
        ∀ c, fetch = .ok c →
          handle_check_schedule true cached force now fetch
            = (.served c false, 1)) := by
  unfold handle_check_schedule cacheServable
  cases cached <;> cases force <;> cases fetch <;>
    simp_all [resultFromCache, fetchBranch] <;> split_ifs <;>
    simp_all [resultFromCache, fetchBranch]

/-- C5: whenever the refresh path is taken (the cache is not servable) and
the fetch fails, the error text is surfaced to the caller and the result is
not a served snapshot of any kind — in particular the stale cached snapshot
is never served as a silent fallback (`src/server.py:246-251`). -/
theorem check_schedule_fetch_failure_surfaced (cached : Option ScheduleCache)
    (force : Bool) (now : Int) (msg : String)
    (h : cacheServable cached force now = false) :
    handle_check_schedule true cached force now (.err msg)
      = (.fetchFailed msg, 1) ∧
    ∀ c b, (handle_check_schedule true cached force now (.err msg)).1
      ≠ CheckScheduleResult.served c b := by
  unfold handle_check_schedule
  unfold cacheServable at h
  cases cached <;> cases force <;> simp_all [fetchBranch] <;> split_ifs <;>
    simp_all [fetchBranch] <;> omega

/-- Witness for C4 at a concrete fresh nonempty cache: the cache is served. -/
theorem check_schedule_cache_policy_witness :
    handle_check_schedule true (some ⟨[hourSlot 13], [], 0⟩) false 100
        (.ok ⟨[], [], 5⟩)
      = (.served ⟨[hourSlot 13], [], 0⟩ true, 0) :=
  (check_schedule_cache_policy (some ⟨[hourSlot 13], [], 0⟩) false 100
      (.ok ⟨[], [], 5⟩)).2.1 _ rfl (by decide)

/-- Witness for C5 at a concrete stale cache and failing fetch. -/
theorem check_schedule_fetch_failure_surfaced_witness :
    handle_check_schedule true (some ⟨[hourSlot 13], [], 0⟩) false 5000
        (.err "timeout")
      = (.fetchFailed "timeout", 1) :=
  (check_schedule_fetch_failure_surfaced (some ⟨[hourSlot 13], [], 0⟩) false 5000
      "timeout" (by decide)).1

/-- Helper: `setattr` on a key other than `enabled` leaves `enabled`
unchanged. -/
lemma setMonitoringAttr_enabled (m : MonitoringConfig) (k : String) (v : AttrVal)
    (hk : k ≠ "enabled") : (setMonitoringAttr m k v).enabled = m.enabled := by
  unfold setMonitoringAttr
  split_ifs <;> first | rfl | (cases v <;> rfl) | simp_all

/-- Helper: `setattr` on a key other than `notification_before_minutes`
leaves that field unchanged. -/
lemma setMonitoringAttr_before (m : MonitoringConfig) (k : String) (v : AttrVal)
    (hk : k ≠ "notification_before_minutes") :
    (setMonitoringAttr m k v).notification_before_minutes
      = m.notification_before_minutes := by
  unfold setMonitoringAttr
  split_ifs <;> first | rfl | (cases v <;> rfl) | simp_all

/-- Helper: `setattr` on a key other than `check_interval_minutes` leaves
that field unchanged. -/
lemma setMonitoringAttr_interval (m : MonitoringConfig) (k : String) (v : AttrVal)
    (hk : k ≠ "check_interval_minutes") :
    (setMonitoringAttr m k v).check_interval_minutes
      = m.check_interval_minutes := by
  unfold setMonitoringAttr
  split_ifs <;> first | rfl | (cases v <;> rfl) | simp_all

lemma foldl_update_enabled (kwargs : List (String × AttrVal))
    (m : MonitoringConfig) (h : "enabled" ∉ kwargs.map Prod.fst) :
    (kwargs.foldl updateMonitoringStep m).enabled = m.enabled := by
  induction kwargs generalizing m with
  | nil => rfl
  | cons kv rest ih =>
      simp only [List.map_cons, List.mem_cons, not_or] at h
      rw [List.foldl_cons, ih _ (by simpa using h.2)]
      unfold updateMonitoringStep
      split_ifs
      · exact setMonitoringAttr_enabled m kv.1 kv.2 (Ne.symm h.1)
      · rfl

lemma foldl_update_before (kwargs : List (String × AttrVal))
    (m : MonitoringConfig)
    (h : "notification_before_minutes" ∉ kwargs.map Prod.fst) :
    (kwargs.foldl updateMonitoringStep m).notification_before_minutes
      = m.notification_before_minutes := by
  induction kwargs generalizing m with
  | nil => rfl
  | cons kv rest ih =>
      simp only [List.map_cons, List.mem_cons, not_or] at h
      rw [List.foldl_cons, ih _ (by simpa using h.2)]
      unfold updateMonitoringStep
      split_ifs
      · exact setMonitoringAttr_before m kv.1 kv.2 (Ne.symm h.1)
      · rfl

lemma foldl_update_interval (kwargs : List (String × AttrVal))
    (m : MonitoringConfig) (h : "check_interval_minutes" ∉ kwargs.map Prod.fst) :
    (kwargs.foldl updateMonitoringStep m).check_interval_minutes
      = m.check_interval_minutes := by
  induction kwargs generalizing m with
  | nil => rfl
  | cons kv rest ih =>
      simp only [List.map_cons, List.mem_cons, not_or] at h
      rw [List.foldl_cons, ih _ (by simpa using h.2)]
      unfold updateMonitoringStep
      split_ifs
      · exact setMonitoringAttr_interval m kv.1 kv.2 (Ne.symm h.1)
      · rfl

lemma foldl_update_unknown (kwargs : List (String × AttrVal))
    (m : MonitoringConfig) (h : ∀ kv ∈ kwargs, kv.1 ∉ monitoringFieldNames) :
    kwargs.foldl updateMonitoringStep m = m := by
  induction kwargs generalizing m with
  | nil => rfl
  | cons kv rest ih =>
      rw [List.foldl_cons]
      unfold updateMonitoringStep
      rw [if_neg (h kv (List.mem_cons_self _ _))]
      exact ih _ (fun x hx => h x (List.mem_cons_of_mem _ hx))

/-- C10: keyword arguments naming attributes that do not exist on
`MonitoringConfig` are silently ignored (an all-unknown call is a no-op for
in-memory state and saved file alike), and every field not named in the call
keeps its previous value in both the in-memory configuration and the saved
file. -/
theorem update_monitoring_frame_effects (m : MonitoringConfig)
    (kwargs : List (String × AttrVal)) :
    ((∀ kv ∈ kwargs, kv.1 ∉ monitoringFieldNames) →
        update_monitoring m kwargs = (m, m)) ∧
    ("enabled" ∉ kwargs.map Prod.fst →
        (update_monitoring m kwargs).1.enabled = m.enabled ∧
        (update_monitoring m kwargs).2.enabled = m.enabled) ∧
    ("notification_before_minutes" ∉ kwargs.map Prod.fst →
        (update_monitoring m kwargs).1.notification_before_minutes
          = m.notification_before_minutes ∧
        (update_monitoring m kwargs).2.notification_before_minutes
          = m.notification_before_minutes) ∧
    ("check_interval_minutes" ∉ kwargs.map Prod.fst →
        (update_monitoring m kwargs).1.check_interval_minutes
          = m.check_interval_minutes ∧
        (update_monitoring m kwargs).2.check_interval_minutes
          = m.check_interval_minutes) := by
  refine ⟨fun h => ?_, fun h => ?_, fun h => ?_, fun h => ?_⟩
  · simp [update_monitoring, foldl_update_unknown kwargs m h]
  · exact ⟨foldl_update_enabled kwargs m h, foldl_update_enabled kwargs m h⟩
  · exact ⟨foldl_update_before kwargs m h, foldl_update_before kwargs m h⟩
  · exact ⟨foldl_update_interval kwargs m h, foldl_update_interval kwargs m h⟩

/-- Witness for C10: a call passing only the daemon's `tracked_outage`
keyword and a bogus one changes nothing. -/
theorem update_monitoring_frame_effects_witness :
    update_monitoring ⟨60, 45, false⟩
      [("tracked_outage", AttrVal.tracked ⟨none, 13, 19, true, false⟩),
       ("bogus", AttrVal.int 7)]
      = (⟨60, 45, false⟩, ⟨60, 45, false⟩) :=
  (update_monitoring_frame_effects ⟨60, 45, false⟩
      [("tracked_outage", AttrVal.tracked ⟨none, 13, 19, true, false⟩),
       ("bogus", AttrVal.int 7)]).1 (by decide)

/-- Helper: one upcoming check either emits nothing and leaves the state
untouched, or emits a start warning for a closest slot whose identifier was
not yet notified and pushes that identifier onto the notified set. -/
lemma check_upcoming_cases (st : DaemonState) (now : Instant) :
    ((check_upcoming_outages st now).1 = none ∧
     (check_upcoming_outages st now).2 = st) ∨
    ∃ closest,
      (check_upcoming_outages st now).1
        = some (.startWarning closest (minutesUntil now closest.start_hour)) ∧
      outageId closest ∉ st.notified ∧
      (check_upcoming_outages st now).2.notified
        = outageId closest :: st.notified := by
  unfold check_upcoming_outages
  split
  · exact Or.inl ⟨rfl, rfl⟩
  · split
    · exact Or.inl ⟨rfl, rfl⟩
    · split
      · exact Or.inl ⟨rfl, rfl⟩
      · split
        · exact Or.inl ⟨rfl, rfl⟩
        · dsimp only
          split
          · exact Or.inl ⟨rfl, rfl⟩
          · split
            · exact Or.inl ⟨rfl, rfl⟩
            · next closest _ hmem =>
                exact Or.inr ⟨closest, rfl, hmem, rfl⟩

/-- Helper: once an identifier is in the notified set, no later check in the
sequence emits a start warning for it. -/
lemma runUpcomingChecks_count_zero
    (inputs : List (DaemonMonitoringConfig × Bool × Option ScheduleCache × Instant))
    (notified : List String) (id : String) (h : id ∈ notified) :
    (runUpcomingChecks inputs notified).countP (eventWarnsId id) = 0 := by
  induction inputs generalizing notified with
  | nil => rfl
  | cons x rest ih =>
      obtain ⟨m, ha, c, now⟩ := x
      rw [runUpcomingChecks, List.countP_append]
      rcases check_upcoming_cases ⟨m, ha, c, notified⟩ now with
        ⟨he, hst⟩ | ⟨cl, he, hnm, hn⟩
      · rw [he, hst]
        simpa using ih notified h
      · rw [he, hn]
        have hne : outageId cl ≠ id := fun hc => hnm (hc ▸ h)
        have hhead : eventWarnsId id
            (NotifEvent.startWarning cl (minutesUntil now cl.start_hour)) = false := by
          simp [eventWarnsId, hne]
        simp only [Option.toList_some, List.countP_cons, hhead, List.countP_nil]
        simpa using ih (outageId cl :: notified) (List.mem_cons_of_mem _ h)

/-- C7: over any sequence of upcoming-start checks sharing one notified-set
lifetime, a start warning for a given identifier is emitted at most once; and
once the identifier is in the notified set, a check that selects it emits no
event for it. -/
theorem start_warning_emitted_at_most_once
    (inputs : List (DaemonMonitoringConfig × Bool × Option ScheduleCache × Instant))
    (notified0 : List String) (id : String) :
    (runUpcomingChecks inputs notified0).countP (eventWarnsId id) ≤ 1 ∧
    (∀ (m : DaemonMonitoringConfig) (ha : Bool) (c : Option ScheduleCache)
        (now : Instant) (s : OutageSchedule) (mins : Int),
      id ∈ notified0 →
      (check_upcoming_outages ⟨m, ha, c, notified0⟩ now).1
        = some (.startWarning s mins) →
      outageId s ≠ id) := by
  constructor
  · induction inputs generalizing notified0 with
    | nil => simp [runUpcomingChecks]
    | cons x rest ih =>
        obtain ⟨m, ha, c, now⟩ := x
        rw [runUpcomingChecks, List.countP_append]
        rcases check_upcoming_cases ⟨m, ha, c, notified0⟩ now with
          ⟨he, hst⟩ | ⟨cl, he, hnm, hn⟩
        · rw [he, hst]
          simpa using ih notified0
        · rw [he, hn]
          by_cases hid : outageId cl = id
          · subst hid
            have hz := runUpcomingChecks_count_zero rest
              (outageId cl :: notified0) (outageId cl) (List.mem_cons_self _ _)
            simp [eventWarnsId, hz]
          · have hhead : eventWarnsId id
                (NotifEvent.startWarning cl (minutesUntil now cl.start_hour))
                  = false := by
              simp [eventWarnsId, hid]
            simp only [Option.toList_some, List.countP_cons, hhead,
              List.countP_nil, cond_false]
            simpa using ih (outageId cl :: notified0)
  · intro m ha c now s mins hmem hev
    rcases check_upcoming_cases ⟨m, ha, c, notified0⟩ now with
      ⟨he, _⟩ | ⟨cl, he, hnm, _⟩
    · rw [he] at hev; cases hev
    · rw [he] at hev
      have : cl = s := by
        injection hev with h1
        cases h1
        rfl
      subst this
      exact fun hc => hnm (hc ▸ hmem)

/-- Witness for C7 on a concrete two-cycle sequence in which the same
19:00-20:00 outage is selected twice. -/
theorem start_warning_emitted_at_most_once_witness :
    (runUpcomingChecks
        [(⟨60, 45, true, none⟩, true,
          some ⟨[hourSlot 19], [], 0⟩, ⟨"21.11.25", 18, 20⟩),
         (⟨60, 45, true, none⟩, true,
          some ⟨[hourSlot 19], [], 0⟩, ⟨"21.11.25", 18, 25⟩)] []).countP
      (eventWarnsId "21.11.25_19") ≤ 1 :=
  (start_warning_emitted_at_most_once _ _ _).1

/-- Helper: on a today-dated entry the scan's candidate test reduces to the
start-hour comparison. -/
lemma cand_of_today {today : String} {ch : Int} {s : OutageSchedule}
    (hd : s.date = some today) :
    nextOutageCand today ch s = decide (ch < s.start_hour) := by
  simp [nextOutageCand, hd]

/-- Helper: an entry dated anything other than today is immediately a
candidate. -/
lemma cand_of_other {today : String} {ch : Int} {s : OutageSchedule}
    (hd : s.date ≠ some today) : nextOutageCand today ch s = true := by
  simp [nextOutageCand, hd]

/-- Helper: a find over an appended list that succeeds on the left part. -/
lemma find?_append_left {α : Type} {p : α → Bool} {l1 l2 : List α} {x : α}
    (h : l1.find? p = some x) : (l1 ++ l2).find? p = some x := by
  induction l1 with
  | nil => cases h
  | cons a l ih =>
      by_cases hpa : p a
      · rw [List.find?_cons_of_pos _ hpa] at h
        rw [List.cons_append, List.find?_cons_of_pos _ hpa]
        exact h
      · rw [List.find?_cons_of_neg _ hpa] at h
        rw [List.cons_append, List.find?_cons_of_neg _ hpa]
        exact ih h

/-- Helper: a find over an appended list whose left part has no match. -/
lemma find?_append_none {α : Type} {p : α → Bool} {l1 l2 : List α}
    (h : l1.find? p = none) : (l1 ++ l2).find? p = l2.find? p := by
  induction l1 with
  | nil => rfl
  | cons a l ih =>
      by_cases hpa : p a
      · rw [List.find?_cons_of_pos _ hpa] at h; cases h
      · rw [List.find?_cons_of_neg _ hpa] at h
        rw [List.cons_append, List.find?_cons_of_neg _ hpa]
        exact ih h

/-- Helper: over a list sorted by nondecreasing start hour, the first match of
a find has the least start hour among all matches. -/
lemma find?_sorted_min {T : List OutageSchedule} {p : OutageSchedule → Bool}
    (hsort : T.Pairwise (fun a b => a.start_hour ≤ b.start_hour))
    {q : OutageSchedule} (h : T.find? p = some q) :
    ∀ r ∈ T, p r = true → q.start_hour ≤ r.start_hour := by
  induction T with
  | nil => cases h
  | cons a T' ih =>
      rcases List.pairwise_cons.mp hsort with ⟨ha, hsort'⟩
      by_cases hpa : p a
      · rw [List.find?_cons_of_pos _ hpa] at h
        injection h with h; subst h
        intro r hr _
        rcases List.mem_cons.mp hr with rfl | hr'
        · exact le_refl _
        · exact ha r hr'
      · rw [List.find?_cons_of_neg _ hpa] at h
        intro r hr hpr
        rcases List.mem_cons.mp hr with rfl | hr'
        · exact absurd hpr (by simpa using hpa)
        · exact ih hsort' h r hr' hpr

/-- C8 (amended): characterization of `handle_get_next_outage` when the cached
actual entries split as today's entries `T` (listed in nondecreasing start
order) followed by entries `O` of other days.  The scan returns the earliest
future-today candidate if any exists; otherwise the first other-day entry;
otherwise — contrary to the claim's `None` — the first entry of the list as a
fallback; `none` is returned exactly when the filtered list is empty. -/
theorem next_outage_selection_characterized (c : ScheduleCache) (today : String)
    (ch : Int) (T O : List OutageSchedule)
    (hsplit : c.actual_schedules.filter (fun s => s.schedule_type == "actual")
      = T ++ O)
    (hT : ∀ s ∈ T, s.date = some today)
    (hO : ∀ s ∈ O, s.date ≠ some today)
    (hsort : T.Pairwise (fun a b => a.start_hour ≤ b.start_hour)) :
    ((∃ p ∈ T, ch < p.start_hour) →
        ∃ q, handle_get_next_outage c today ch = some q ∧ q ∈ T ∧
          ch < q.start_hour ∧
          ∀ r ∈ T, ch < r.start_hour → q.start_hour ≤ r.start_hour) ∧
    ((∀ p ∈ T, ¬ ch < p.start_hour) → O ≠ [] →
        handle_get_next_outage c today ch = O.head?) ∧
    ((∀ p ∈ T, ¬ ch < p.start_hour) → O = [] → T ≠ [] →
        handle_get_next_outage c today ch = T.head?) ∧
    (handle_get_next_outage c today ch = none ↔ T = [] ∧ O = []) := by
  have hmain : handle_get_next_outage c today ch
      = match (T ++ O).find? (nextOutageCand today ch) with
        | some s => some s
        | none => (T ++ O).head? := by
    unfold handle_get_next_outage
    rw [hsplit]
  refine ⟨?_, ?_, ?_, ?_⟩
  · rintro ⟨p, hp, hplt⟩
    have hx : (T.find? (nextOutageCand today ch)).isSome := by
      rw [List.find?_isSome]
      exact ⟨p, hp, by rw [cand_of_today (hT p hp)]; exact decide_eq_true hplt⟩
    rcases Option.isSome_iff_exists.mp hx with ⟨q, hq⟩
    have hqmem := List.mem_of_find?_eq_some hq
    have hqp := List.find?_some hq
    rw [cand_of_today (hT q hqmem)] at hqp
    refine ⟨q, ?_, hqmem, of_decide_eq_true hqp, ?_⟩
    · rw [hmain, find?_append_left hq]
    · intro r hr hrlt
      exact find?_sorted_min hsort hq r hr
        (by rw [cand_of_today (hT r hr)]; exact decide_eq_true hrlt)
  · intro hnone hOne
    have hTn : T.find? (nextOutageCand today ch) = none := by
      rw [List.find?_eq_none]
      intro x hx
      rw [cand_of_today (hT x hx)]
      simpa using hnone x hx
    rcases O with _ | ⟨a, O'⟩
    · exact absurd rfl hOne
    · rw [hmain, find?_append_none hTn,
        List.find?_cons_of_pos _ (cand_of_other (hO a (List.mem_cons_self _ _)))]
      rfl
  · intro hnone hOe hTne
    subst hOe
    have hTn : T.find? (nextOutageCand today ch) = none := by
      rw [List.find?_eq_none]
      intro x hx
      rw [cand_of_today (hT x hx)]
      simpa using hnone x hx
    rw [hmain, List.append_nil, hTn]
  · rw [hmain]
    constructor
    · intro h
      rcases hf : (T ++ O).find? (nextOutageCand today ch) with _ | s
      · rw [hf] at h
        rcases hTO : T ++ O with _ | ⟨a, l⟩
        · simpa using List.append_eq_nil.mp hTO
        · rw [hTO] at h; cases h
      · rw [hf] at h; cases h
    · rintro ⟨rfl, rfl⟩
      rfl

/-- Witness for C8: with today's 14:00-15:00 slot already past at hour 20 and
a tomorrow entry present, the selection returns the tomorrow entry. -/
theorem next_outage_selection_characterized_witness :
    handle_get_next_outage ⟨[hourSlot 14, tomorrowSlot], [], 0⟩ "21.11.25" 20
      = some tomorrowSlot := by
  have h := (next_outage_selection_characterized
      ⟨[hourSlot 14, tomorrowSlot], [], 0⟩ "21.11.25" 20
      [hourSlot 14] [tomorrowSlot] (by decide) (by decide) (by decide)
      (by decide)).2.1 (by decide) (by decide)
  simpa using h

/-- C8 counterexample: when the only cached entry is a today-dated slot that
has already ended (10:00-11:00 at hour 12) — no future-today and no
future-other-day candidate exists — the claim demands `None`, but the code's
fallback returns that past slot. -/
theorem next_outage_all_past_returns_fallback :
    handle_get_next_outage ⟨[hourSlot 10], [], 0⟩ "21.11.25" 12
      = some (hourSlot 10) ∧
    (hourSlot 10).end_hour ≤ 12 := by decide

/-- Helper: the minimum-by-key element belongs to the list. -/
lemma minByKey_mem {α : Type} {f : α → Int} {l : List α} {x : α}
    (h : minByKey f l = some x) : x ∈ l := by
  induction l with
  | nil => cases h
  | cons a l' ih =>
      rw [minByKey] at h
      split at h
      · injection h with h
        subst h
        exact List.mem_cons_self _ _
      · rename_i y h'
        split_ifs at h with hlt
        · injection h with h
          subst h
          exact List.mem_cons_of_mem _ (ih h')
        · injection h with h
          subst h
          exact List.mem_cons_self _ _

/-- Helper: unpacking the upcoming-window eligibility test. -/
lemma upcomingEligible_parts {m : DaemonMonitoringConfig} {now : Instant}
    {s : OutageSchedule} (h : upcomingEligible m now s = true) :
    s.date = some now.today ∧ 0 ≤ minutesUntil now s.start_hour ∧
      minutesUntil now s.start_hour ≤ m.notification_before_minutes := by
  simpa [upcomingEligible, Bool.and_eq_true, and_assoc] using h

/-- Helper: the slot `min(upcoming, key=time-until-start)` picks — Python's
`min` returns the first element attaining the minimum, and the key is
injective in the start hour — is exactly the first list entry with its date
and start hour, i.e. the entry the drift check's lookup
(`src/monitor_outages_daemon.py:216-219`) finds. -/
lemma minByKey_filter_find {l : List OutageSchedule}
    {m : DaemonMonitoringConfig} {now : Instant} {sel : OutageSchedule}
    (h : minByKey (fun s => minutesUntil now s.start_hour)
          (l.filter (upcomingEligible m now)) = some sel) :
    l.find?
        (fun s => s.date == some now.today && s.start_hour == sel.start_hour)
      = some sel := by
  induction l with
  | nil => simp [minByKey] at h
  | cons a l' ih =>
      have hselig : upcomingEligible m now sel = true :=
        (List.mem_filter.mp (minByKey_mem h)).2
      obtain ⟨hsd, hs0, hsw⟩ := upcomingEligible_parts hselig
      by_cases he : upcomingEligible m now a = true
      · rw [List.filter_cons, if_pos he] at h
        obtain ⟨had, -, -⟩ := upcomingEligible_parts he
        rw [minByKey] at h
        split at h
        · injection h with h
          subst h
          exact List.find?_cons_of_pos l' (by simp [had])
        · rename_i y h'
          split_ifs at h with hlt
          · injection h with h
            subst h
            have hne : a.start_hour ≠ y.start_hour := by
              intro hc
              unfold minutesUntil at hlt
              omega
            exact (List.find?_cons_of_neg l' (by simp [had, hne])).trans (ih h')
          · injection h with h
            subst h
            exact List.find?_cons_of_pos l' (by simp [had])
      · rw [List.filter_cons, if_neg he] at h
        have hpred : ¬(a.date == some now.today
            && a.start_hour == sel.start_hour) = true := by
          intro hcon
          rw [Bool.and_eq_true, beq_iff_eq, beq_iff_eq] at hcon
          obtain ⟨hda, hsa⟩ := hcon
          exact he (by simp [upcomingEligible, hda, hsa, hs0, hsw])
        exact (List.find?_cons_of_neg l' hpred).trans (ih h)

/-- Helper: when the upcoming check emits, the resulting state has monitoring
enabled, carries the freshly tracked outage copied from the selected slot, and
keeps the cache; the selected slot is the minimum of the eligible ones. -/
lemma check_upcoming_emit_shape {st : DaemonState} {now : Instant}
    {ev : NotifEvent} {st1 : DaemonState}
    (h : check_upcoming_outages st now = (some ev, st1)) :
    ∃ c closest,
      st.cache = some c ∧
      minByKey (fun s => minutesUntil now s.start_hour)
        ((actualOnly c).filter (upcomingEligible st.monitoring now))
        = some closest ∧
      st1.monitoring.enabled = true ∧
      st1.monitoring.tracked_outage
        = some ⟨closest.date, closest.start_hour, closest.end_hour,
                true, false⟩ ∧
      st1.cache = st.cache ∧
      st1.monitoring.notification_before_minutes
        = st.monitoring.notification_before_minutes := by
  cases hen : st.monitoring.enabled with
  | false => simp [check_upcoming_outages, hen] at h
  | true =>
      unfold check_upcoming_outages at h
      rw [hen] at h
      simp only [Bool.not_true, Bool.false_eq_true, if_false] at h
      split at h
      · simp at h
      · split at h
        · simp at h
        · rename_i c hc
          split at h
          · simp at h
          · split at h
            · simp at h
            · rename_i closest hmin
              split at h
              · simp at h
              · rw [Prod.mk.injEq] at h
                refine ⟨c, closest, hc, hmin, ?_⟩
                rw [← h.2]
                exact ⟨hen, rfl, rfl, rfl⟩

/-- Helper: after the upcoming check emits, the drift check of the same cycle
emits nothing: the tracked outage just installed is the very snapshot entry
the lookup finds, with an unchanged end hour (or it fails the ten-minute
window). -/
lemma cycle_second_silent {st : DaemonState} {now : Instant}
    {ev : NotifEvent} {st1 : DaemonState}
    (h : check_upcoming_outages st now = (some ev, st1)) :
    (check_schedule_changes st1 now).1 = none := by
  obtain ⟨c, closest, hc, hmin, hen1, htr1, hc1, -⟩ :=
    check_upcoming_emit_shape h
  have hselig : upcomingEligible st.monitoring now closest = true :=
    (List.mem_filter.mp (minByKey_mem hmin)).2
  have hdate : closest.date = some now.today :=
    (upcomingEligible_parts hselig).1
  have hfind := minByKey_filter_find hmin
  have hmemc : closest ∈ c.actual_schedules :=
    List.mem_of_mem_filter (List.mem_filter.mp (minByKey_mem hmin)).1
  have hne : ¬c.actual_schedules.isEmpty = true := by
    rw [List.isEmpty_iff]
    exact List.ne_nil_of_mem hmemc
  unfold check_schedule_changes
  rw [hen1, htr1]
  simp only [Bool.not_true, Bool.false_eq_true, if_false]
  rw [hdate]
  simp only [bne_self_eq_false, Bool.false_eq_true, if_false]
  split
  · rfl
  · simp only [hc1, hc, hne, hfind, bne_self_eq_false, Bool.false_eq_true,
      if_false]

/-- C9 (amended): one daemon cycle emits at most one notification event; when
the upcoming check fires, the tracked outage it installs makes the drift
check silent in the same cycle. -/
theorem daemon_cycle_at_most_one_event (st : DaemonState) (now : Instant) :
    (daemonCycle st now).1.length ≤ 1 := by
  unfold daemonCycle
  rcases h1 : check_upcoming_outages st now with ⟨e1, st1⟩
  rcases e1 with _ | ev
  · simp only [Option.toList_none, List.nil_append]
    rcases (check_schedule_changes st1 now).1 with _ | e2 <;> simp
  · have h2 := cycle_second_silent h1
    simp [h2]

/-- C9 counterexample: in `bothChecksState` at 18:55 both checks would fire —
the drift check alone would emit a cancellation for the vanished 13:00-19:00
outage (first conjunct) — yet the cycle emits only the start warning (second
conjunct), and the following cycle emits nothing at all (third conjunct): the
drift event is discarded, not deferred to a following cycle as the claim
states. -/
theorem daemon_cycle_drift_event_not_deferred :
    (check_schedule_changes bothChecksState ⟨"21.11.25", 18, 55⟩).1
      = some (.cancellation ⟨some "21.11.25", 13, 19, true, false⟩) ∧
    (daemonCycle bothChecksState ⟨"21.11.25", 18, 55⟩).1
      = [.startWarning (hourSlot 19) 5] ∧
    (daemonCycle (daemonCycle bothChecksState ⟨"21.11.25", 18, 55⟩).2
        ⟨"21.11.25", 18, 56⟩).1 = [] := by decide

/-- C6 (amended): when monitoring is enabled, a tracked outage is set, dated
today, not yet flagged, within the ten-minute window before its end hour, and
the cached snapshot is present with a nonempty actual list, the drift check
emits exactly one cancellation event and sets `notified_about_change` when no
entry matches `(today, start_hour)`; exactly one extension (greater end hour)
or shortening (smaller end hour) event, updating the tracked end hour and the
flag, when a matching entry's end hour differs; and no event with an unchanged
state when it matches exactly. -/
theorem schedule_change_check_trichotomy
    (st : DaemonState) (now : Instant) (tr : TrackedOutage) (c : ScheduleCache)
    (henabled : st.monitoring.enabled = true)
    (htr : st.monitoring.tracked_outage = some tr)
    (hdate : tr.date = some now.today)
    (hwin : 0 ≤ (tr.end_hour - now.hour) * 60 - now.minute ∧
            (tr.end_hour - now.hour) * 60 - now.minute ≤ 10)
    (hflag : tr.notified_about_change = false)
    (hcache : st.cache = some c)
    (hne : c.actual_schedules ≠ []) :
    ((actualOnly c).find?
        (fun s => s.date == some now.today && s.start_hour == tr.start_hour)
          = none →
      check_schedule_changes st now
        = (some (.cancellation tr),
           { st with
              monitoring :=
                { st.monitoring with
                    tracked_outage :=
                      some ⟨tr.date, tr.start_hour, tr.end_hour,
                            tr.notified_about_start, true⟩ } })) ∧
    (∀ cur, (actualOnly c).find?
        (fun s => s.date == some now.today && s.start_hour == tr.start_hour)
          = some cur → tr.end_hour < cur.end_hour →
      check_schedule_changes st now
        = (some (.extended tr cur.end_hour),
           { st with
              monitoring :=
                { st.monitoring with
                    tracked_outage :=
                      some ⟨tr.date, tr.start_hour, cur.end_hour,
                            tr.notified_about_start, true⟩ } })) ∧
    (∀ cur, (actualOnly c).find?
        (fun s => s.date == some now.today && s.start_hour == tr.start_hour)
          = some cur → cur.end_hour < tr.end_hour →
      check_schedule_changes st now
        = (some (.shortened tr cur.end_hour),
           { st with
              monitoring :=
                { st.monitoring with
                    tracked_outage :=
                      some ⟨tr.date, tr.start_hour, cur.end_hour,
                            tr.notified_about_start, true⟩ } })) ∧
    (∀ cur, (actualOnly c).find?
        (fun s => s.date == some now.today && s.start_hour == tr.start_hour)
          = some cur → cur.end_hour = tr.end_hour →
      check_schedule_changes st now = (none, st)) := by
  obtain ⟨⟨mci, mnb, men, mto⟩, ha, cach, ntf⟩ := st
  simp only at henabled htr hcache
  subst henabled
  subst htr
  subst hcache
  have hbody : check_schedule_changes
      ⟨⟨mci, mnb, true, some tr⟩, ha, some c, ntf⟩ now
      = match (actualOnly c).find?
          (fun s => s.date == some now.today
            && s.start_hour == tr.start_hour) with
        | none =>
            (some (.cancellation tr),
             ⟨⟨mci, mnb, true,
               some ⟨tr.date, tr.start_hour, tr.end_hour,
                     tr.notified_about_start, true⟩⟩, ha, some c, ntf⟩)
        | some cur =>
            if cur.end_hour != tr.end_hour then
              (some (if tr.end_hour < cur.end_hour then
                       .extended tr cur.end_hour
                     else .shortened tr cur.end_hour),
               ⟨⟨mci, mnb, true,
                 some ⟨tr.date, tr.start_hour, cur.end_hour,
                       tr.notified_about_start, true⟩⟩, ha, some c, ntf⟩)
            else (none, ⟨⟨mci, mnb, true, some tr⟩, ha, some c, ntf⟩) := by
    unfold check_schedule_changes
    dsimp only
    simp only [Bool.not_true, Bool.false_eq_true, if_false]
    rw [if_neg (by simp [hdate])]
    rw [if_neg (by simp [hwin.1, hwin.2])]
    rw [if_neg (by simp [hflag])]
    rw [if_neg (by simpa [List.isEmpty_iff] using hne)]
  refine ⟨fun hnone => ?_, fun cur hcur hlt => ?_, fun cur hcur hlt => ?_,
    fun cur hcur heq => ?_⟩
  · simp only [hbody, hnone]
  · simp only [hbody, hcur]
    rw [if_pos (by simp only [bne_iff_ne, ne_eq]; omega), if_pos hlt]
  · simp only [hbody, hcur]
    rw [if_pos (by simp only [bne_iff_ne, ne_eq]; omega), if_neg (by omega)]
  · simp only [hbody, hcur]
    rw [if_neg (by simp [heq])]

/-- Witness for C6 at a concrete cancellation scenario: tracked 13:00-19:00,
18:55, snapshot holding only a 23:00-24:00 slot. -/
theorem schedule_change_check_trichotomy_witness :
    check_schedule_changes driftWitnessState ⟨"21.11.25", 18, 55⟩
      = (some (.cancellation ⟨some "21.11.25", 13, 19, true, false⟩),
         ⟨⟨60, 45, true, some ⟨some "21.11.25", 13, 19, true, true⟩⟩, true,
          some ⟨[hourSlot 23], [], 0⟩, []⟩) := by
  have h := (schedule_change_check_trichotomy driftWitnessState
      ⟨"21.11.25", 18, 55⟩ ⟨some "21.11.25", 13, 19, true, false⟩
      ⟨[hourSlot 23], [], 0⟩ rfl rfl rfl (by decide) rfl rfl
      (by decide)).1 (by decide)
  exact h.trans (by decide)

/-- C6 counterexample: every precondition of the claim holds — tracked
outage set, dated today, unflagged, five minutes from restoration, and no
snapshot entry matches `(date, startHour)` because the snapshot's actual list
is empty — yet the check emits no cancellation and leaves the state (the
`notified_about_change` flag included) unchanged, because the code returns
early on an empty actual list (`src/monitor_outages_daemon.py:207-209`). -/
theorem schedule_change_empty_snapshot_silent :
    check_schedule_changes emptySnapshotState ⟨"21.11.25", 18, 55⟩
      = (none, emptySnapshotState) ∧
    emptySnapshotState.monitoring.tracked_outage
      = some ⟨some "21.11.25", 13, 19, true, false⟩ ∧
    (0 : Int) ≤ (19 - 18) * 60 - 55 ∧ ((19 : Int) - 18) * 60 - 55 ≤ 10 := by
  decide
